import Mathlib

/-!
Shallow embedding of `qualipy.py` (Qualtrics v3 API export utility) for
verification of its specification.

The embedding models:
* Python JSON values (`J`), Python exceptions (`PyErr`), and Python
  subscripting / string helpers;
* the `Qualtrics` class state (`Config`) and its constructor;
* `create_df_from_api_data` over a model of pandas DataFrames (`Table`);
* `setup_output_filename`, `write_json_to_disk`, `write_df_to_disk` over an
  explicit filesystem oracle (`Disk`);
* `get_survey` and `get_responseexports` over an explicit HTTP oracle
  (`World`) that supplies the server's responses, together with the trace of
  outbound requests (`Req`) the code issues.

The HTTP layer (`requests`), zip decompression and JSON parsing are library
calls; they are modelled by oracles: a GET response carries both its parsed
JSON body (the view `requests.Response.json()` / `json.loads` produces) and
its zip-directory view (entry name together with the parsed JSON content of
the entry), so no textual JSON parser is re-implemented.  The polling
`while` loop is embedded with explicit fuel; `none` marks divergence.
-/

/-- Model of a parsed Python JSON value (`json.loads` output).  Numbers are
modelled as integers (the fields the program inspects — `percentComplete` —
are integral). -/
inductive J where
  | str (s : String)
  | num (n : Int)
  | bool (b : Bool)
  | null
  | arr (xs : List J)
  | obj (fields : List (String × J))

/-- Model of the Python exceptions the embedded code can raise. -/
inductive PyErr where
  | keyError (k : String)
  | indexError
  | typeError
  | httpError (status : Nat)
  | ioError
  | valueError (msg : String)
deriving DecidableEq

/-- Python subscripting `j[k]` on a parsed JSON value: `KeyError` when the
key is absent, `TypeError` when the value is not a mapping. -/
def jGet (j : J) (k : String) : Except PyErr J :=
  match j with
  | .obj fields =>
    match fields.lookup k with
    | some v => .ok v
    | none => .error (.keyError k)
  | _ => .error .typeError

/-- Two successive Python subscripts `j[k1][k2]`. -/
def jGet2 (j : J) (k1 k2 : String) : Except PyErr J :=
  match jGet j k1 with
  | .ok v => jGet v k2
  | .error e => .error e

/-- Python `str.lower()`. -/
def pyLower (s : String) : String := ⟨s.data.map Char.toLower⟩

/-- Python `s[-1]`: the last character, or `IndexError` on the empty
string (modelled as `none`). -/
def pyLastChar (s : String) : Option Char := s.data.getLast?

/-- Python `s.replace("", new)`: inserts `new` at every character boundary;
in particular `"".replace("", new) = new`. -/
def pyReplaceEmpty (s new : String) : String :=
  new ++ String.join (s.data.map fun c => String.singleton c ++ new)

/-- Python `"100 == x"`-style equality of a JSON value with the integer 100
(`response_status_json['result']['percentComplete'] == 100`). -/
def isHundred : J → Bool
  | .num n => n == 100
  | _ => false

/-- A wall-clock instant (`datetime.datetime.now()`), explicit input of the
embedding. -/
structure Instant where
  year : Nat
  month : Nat
  day : Nat
  hour : Nat
  minute : Nat
  second : Nat
deriving DecidableEq

/-- Zero-padding of a numeral to width `w` (`strftime` field formatting). -/
def padNum (w : Nat) (n : Nat) : String :=
  let s := toString n
  ⟨List.replicate (w - s.length) '0'⟩ ++ s

/-- `now.strftime("%Y%m%d")`. -/
def fmtDate (i : Instant) : String :=
  padNum 4 i.year ++ padNum 2 i.month ++ padNum 2 i.day

/-- `now.strftime("%H%M%S")`. -/
def fmtTime (i : Instant) : String :=
  padNum 2 i.hour ++ padNum 2 i.minute ++ padNum 2 i.second

/-- The state stored by `Qualtrics.__init__` (the private attributes of the
class instance). -/
structure Config where
  api_token_header : List (String × String)
  project_name : String
  base_url : String
  path_to_output_files : String
  use_timestamps : Bool

/-- `Qualtrics.__init__`: stores the attributes, then normalizes the base
URL with `if self.__base_url[-1] != "/": self.__base_url += "/"`.  Python
raises `IndexError` on `""[-1]`, modelled as `.error .indexError`. -/
def qualtricsInit (api_token project_name base_url path_to_output_files
    content_type : String) (use_timestamps_for_filenames : Bool) :
    Except PyErr Config :=
  match pyLastChar base_url with
  | none => .error .indexError
  | some c =>
      .ok { api_token_header :=
              [("x-api-token", api_token),
               ("Content-Type", "application/" ++ content_type)]
            project_name := project_name
            base_url := if c ≠ '/' then base_url ++ "/" else base_url
            path_to_output_files := path_to_output_files
            use_timestamps := use_timestamps_for_filenames }

/-- A cell of a pandas DataFrame, as populated from JSON data.  `nan` is the
missing-value marker pandas inserts for keys absent from a record; `pynone`
is Python's `None` (a JSON `null` value that was present). -/
inductive Cell where
  | str (s : String)
  | num (n : Int)
  | boolean (b : Bool)
  | pynone
  | nan
  | nested (j : J)

/-- Conversion of a present JSON value to a DataFrame cell. -/
def jToCell : J → Cell
  | .str s => .str s
  | .num n => .num n
  | .bool b => .boolean b
  | .null => .pynone
  | j => .nested j

/-- Model of a pandas DataFrame: column labels and rows of cells, each row
aligned with `cols`. -/
structure Table where
  cols : List String
  rows : List (List Cell)

/-- The cell of `t` at row `i`, column position `j` (observability helper,
not part of the source). -/
def getCell (t : Table) (i j : Nat) : Option Cell :=
  match t.rows[i]? with
  | some r => r[j]?
  | none => none

/-- Accumulator pass of the first-seen deduplication. -/
def firstSeenAux : List String → List String → List String
  | acc, [] => acc.reverse
  | acc, k :: ks =>
    if k ∈ acc then firstSeenAux acc ks else firstSeenAux (k :: acc) ks

/-- First-seen deduplication of a key list: the union of observed record
keys, one column per distinct key, in order of first appearance. -/
def firstSeen (l : List String) : List String := firstSeenAux [] l

/-- Whether a JSON value is a mapping object. -/
def isObjJ : J → Bool
  | .obj _ => true
  | _ => false

/-- The fields of a JSON mapping object (`[]` on other shapes; callers guard
with `isObjJ`). -/
def objFields : J → List (String × J)
  | .obj fields => fields
  | _ => []

/-- The union of the keys observed across a list of records, one column per
distinct key. -/
def recordsCols (recs : List (List (String × J))) : List String :=
  firstSeen (recs.map (List.map Prod.fst)).flatten

/-- One row of `pd.DataFrame(list_of_records)`: the record's value under
each column, `NaN` where the key is missing. -/
def recordRow (cols : List String) (r : List (String × J)) : List Cell :=
  cols.map fun c =>
    match r.lookup c with
    | some v => jToCell v
    | none => Cell.nan

/-- Model of `pd.DataFrame(list_of_records)` for a list of mapping objects:
one row per record, columns = union of observed keys, missing keys filled
with `NaN`. -/
def recordsTable (recs : List (List (String × J))) : Table :=
  { cols := recordsCols recs
    rows := recs.map (recordRow (recordsCols recs)) }

/-- Model of `pd.DataFrame(xs)` for a Python list: a list of mapping objects
yields the union-column records table; a flat list yields a single
integer-labelled column of the items. -/
def pdFrameOfList (xs : List J) : Table :=
  if xs.all isObjJ then recordsTable (xs.map objFields)
  else { cols := ["0"], rows := xs.map fun x => [jToCell x] }

/-- Model of `pd.DataFrame(d.items())` for a Python dict: a two-column
(key, value) table. -/
def itemsTable (fields : List (String × J)) : Table :=
  { cols := ["0", "1"]
    rows := fields.map fun kv => [Cell.str kv.1, jToCell kv.2] }

/-- The shapes `create_df_from_api_data` dispatches on by `isinstance`:
a Python list, a dict, an existing DataFrame, or anything else. -/
inductive Payload where
  | plist (xs : List J)
  | pdict (fields : List (String × J))
  | pframe (t : Table)
  | pother

/-- The cell-level sanitization of the `.applymap` call:
`x.replace('', ' ') if x == '' else x`.  Only the empty string compares
equal to `''`; every other cell is returned unchanged. -/
def sanitizeCell : Cell → Cell
  | .str s => if s = "" then .str (pyReplaceEmpty s " ") else .str s
  | c => c

/-- `response_data_pd.applymap(lambda x: x.replace('', ' ') if x == '' else x)`:
the sanitization applied to every cell of the frame (column labels are not
cells and are untouched). -/
def sanitizeTable (t : Table) : Table :=
  { cols := t.cols, rows := t.rows.map (List.map sanitizeCell) }

/-- The `isinstance` dispatch of `create_df_from_api_data`, before the
`.applymap` sanitization. -/
def rawTable : Payload → Except PyErr Table
  | .plist xs => .ok (pdFrameOfList xs)
  | .pdict fields => .ok (itemsTable fields)
  | .pframe t => .ok t
  | .pother =>
      .error (.valueError "Need to add a new type of dataframe object value to the code.")

/-- `Qualtrics.create_df_from_api_data`: dispatch on the payload's runtime
type, then sanitize every cell with the `.applymap` lambda. -/
def create_df_from_api_data (json_data : Payload) : Except PyErr Table :=
  (rawTable json_data).map sanitizeTable

/-- The payload shape of a parsed JSON value handed to
`create_df_from_api_data` by `get_responseexports` (`isinstance` view of a
`json.loads` result). -/
def toPayload : J → Payload
  | .arr xs => .plist xs
  | .obj fields => .pdict fields
  | _ => .pother

/-- Filesystem / clock oracle for the disk-writing code paths.  `isdir` and
`realpath`/`abspath` model `os.path`; `featherOk` (resp. `openOk`,
`dumpOk`) tell whether `feather.write_dataframe` (resp. `open(path, 'w')`,
`json.dump`) succeeds.  Directory creation (`os.mkdir`) is a side effect
that does not influence any returned value and is not tracked. -/
structure Disk where
  isdir : String → Bool
  realpath : String → String
  abspath : String → String
  featherOk : Bool
  openOk : Bool
  dumpOk : Bool
  now : Instant

/-- The output-path validation shared by `get_survey` and
`write_df_to_disk`: reject a non-directory destination, then ensure the
path ends with the separator (`os.path.sep = '/'`).  The `isinstance(str)`
guard is vacuous in the embedding (paths are strings by type); Python's
`path[-1]` on the empty string raises `IndexError`. -/
def normalizeOutPath (d : Disk) (p : String) : Except PyErr String :=
  if ¬ d.isdir (d.realpath p) then
    .error (.valueError
      "path_to_files argument is invalid.  Please check the supplied path, where the outputfiles should be written to disk.")
  else
    match pyLastChar p with
    | none => .error .indexError
    | some c => .ok (if c ≠ '/' then p ++ "/" else p)

/-- `Qualtrics.setup_output_filename`: `base_path + project_name` as the
subfolder, a `YYYYMMDD` stamp (joined with `_HHMMSS` when timestamped
filenames are enabled), then `_<survey_name>_<type>.<extension>`.  The
`os.mkdir` guard creates the subfolder as a side effect and does not affect
the returned path. -/
def setup_output_filename (cfg : Config) (now : Instant)
    (base_path survey_name type_ extension : String) : String :=
  let sub_folder := base_path ++ cfg.project_name
  let today :=
    if ¬ cfg.use_timestamps then fmtDate now
    else fmtDate now ++ "_" ++ fmtTime now
  sub_folder ++ "/" ++ today ++ "_" ++ survey_name ++ "_" ++ type_ ++ "." ++ extension

/-- `Qualtrics.write_json_to_disk`: `open(full_file_path, 'w')` sits outside
the `try` block, so a failure to open propagates as the raw `IOError`; a
failure inside `json.dump` is caught and re-raised as
`ValueError('Unable to write json output to disk at ' + os.path.abspath(full_file_path))`. -/
def write_json_to_disk (d : Disk) (_json_data : J) (full_file_path : String) :
    Except PyErr Unit :=
  if ¬ d.openOk then .error .ioError
  else if d.dumpOk then .ok ()
  else .error (.valueError
    ("Unable to write json output to disk at " ++ d.abspath full_file_path))

/-- `Qualtrics.write_df_to_disk`: validate the configured output path,
build the output filename from the first `/`-separated component of the
url suffix, and write the frame in feather format (a failure is re-raised
as `ValueError('Unable to write feather output to disk')`). -/
def write_df_to_disk (cfg : Config) (d : Disk) (_dataframe : Table)
    (survey_name url_suffix : String) : Except PyErr String :=
  match normalizeOutPath d cfg.path_to_output_files with
  | .error e => .error e
  | .ok base =>
    let path := setup_output_filename cfg d.now base survey_name
      ((url_suffix.splitOn "/").headD "") "feather"
    if d.featherOk then .ok path
    else .error (.valueError "Unable to write feather output to disk")

/-- An outbound HTTP request recorded in the trace. -/
inductive Req where
  | post (url : String) (fields : List (String × J))
  | get (url : String)

/-- Whether a trace entry is a GET request. -/
def Req.isGet : Req → Bool
  | .get _ => true
  | .post _ _ => false

/-- The server's answer to one GET request: the parsed JSON body (the
`.json()` / `json.loads` view) and the zip-archive view of the body (entry
names paired with the parsed JSON content of each entry). -/
structure GetResp where
  jsonBody : J
  zipEntries : List (String × J)

/-- HTTP oracle: the status and parsed body of the submission POST, and the
response to the `n`-th GET request the code issues (0-based, in issue
order). -/
structure World where
  postStatus : Nat
  postBody : J
  get : Nat → GetResp

/-- `requests.Response.ok`: `True` unless `raise_for_status` raises, i.e.
unless the status is a 4xx/5xx client or server error. -/
def pyOk (status : Nat) : Bool :=
  if 400 ≤ status ∧ status < 600 then false else true

/-- The optional keyword arguments of `get_responseexports` that are copied
into the form fields. -/
structure Kwargs where
  lastResponseId : Option J := none
  startDate : Option J := none
  endDate : Option J := none
  limit : Option J := none
  includedQuestionIds : Option J := none
  useLabels : Option J := none
  useLocalTime : Option J := none

/-- Appends `(k, v)` when the keyword was supplied. -/
def addKw (fields : List (String × J)) (k : String) : Option J → List (String × J)
  | some v => fields ++ [(k, v)]
  | none => fields

/-- The `form_fields` dict built by `get_responseexports`: survey id and
lowercased format, the optional filters passed through verbatim,
`useLabels` defaulting to `True` and `useLocalTime` defaulting to
`False`. -/
def mkFormFields (survey_token result_format : String) (kw : Kwargs) :
    List (String × J) :=
  let f := [("surveyId", J.str survey_token), ("format", J.str (pyLower result_format))]
  let f := addKw f "lastResponseId" kw.lastResponseId
  let f := addKw f "startDate" kw.startDate
  let f := addKw f "endDate" kw.endDate
  let f := addKw f "limit" kw.limit
  let f := addKw f "includedQuestionIds" kw.includedQuestionIds
  let f := f ++ [("useLabels", kw.useLabels.getD (J.bool true))]
  let f := f ++ [("useLocalTime", kw.useLocalTime.getD (J.bool false))]
  f

/-- The submission endpoint suffix (`url_suffix = 'responseexports'`). -/
def respExportsSuffix : String := "responseexports"

/-- The polling URL: base url, the lowercased suffix with `'/'` appended
when missing (lines 90–93 of the source), then the job id. -/
def statusUrl (cfg : Config) (id : String) : String :=
  cfg.base_url ++
    pyLower (if pyLastChar respExportsSuffix ≠ some '/' then respExportsSuffix ++ "/"
             else respExportsSuffix) ++ id

/-- The polling `while` loop of `get_responseexports`
(`while sleep_counter_ms <= max_wait_ms`), with explicit fuel; `none`
models divergence.  On each iteration the loop issues one GET (consuming
the next oracle index `gi`), raises `KeyError` if the status JSON lacks
`result`/`percentComplete`, breaks when the completion test succeeds, and
otherwise adds `sleep_ms` to the counter and sleeps.  Returns the next GET
index, the final counter, and either the raised error or the last status
JSON paired with a flag telling whether the loop broke on completion
(`false` = the loop fell out of the `while` condition — a timeout). -/
def pollLoop (w : World) (max_wait_ms sleep_ms : Nat) :
    Nat → Nat → Nat → J → Option (Nat × Nat × Except PyErr (J × Bool))
  | 0, _, _, _ => none
  | fuel + 1, gi, counter, last =>
    if counter ≤ max_wait_ms then
      match jGet2 (w.get gi).jsonBody "result" "percentComplete" with
      | .error e => some (gi + 1, counter, .error e)
      | .ok pc =>
        if isHundred pc then
          some (gi + 1, counter, .ok ((w.get gi).jsonBody, true))
        else
          pollLoop w max_wait_ms sleep_ms fuel (gi + 1) (counter + sleep_ms)
            (w.get gi).jsonBody
    else some (gi, counter, .ok (last, false))

/-- `Qualtrics.get_survey`: one GET to `surveys/{survey_token}`, the
`result` field of the parsed body, and — when `write_to_disk` — the
validation of the output path followed by `write_json_to_disk`.  `gi` is
the index of the next unissued GET of the oracle (0 for a standalone
call).  Returns the trace of HTTP requests and the result or raised
error.  (The source also mutates the stored output path when appending the
separator; the mutation only affects later calls and is not modelled.) -/
def get_survey (cfg : Config) (w : World) (d : Disk) (gi : Nat)
    (survey_token survey_name : String) (write_to_disk : Bool) :
    List Req × Except PyErr J :=
  let full_url := cfg.base_url ++ "surveys/" ++ survey_token
  let body := (w.get gi).jsonBody
  ([Req.get full_url],
    match jGet body "result" with
    | .error e => .error e
    | .ok result =>
      if write_to_disk then
        match normalizeOutPath d cfg.path_to_output_files with
        | .error e => .error e
        | .ok base =>
          let path := setup_output_filename cfg d.now base survey_name "survey" "json"
          match write_json_to_disk d result path with
          | .error e => .error e
          | .ok _ => .ok result
      else .ok result)

/-- `Qualtrics.get_responseexports`: build the form fields, POST the export
request; on a 4xx/5xx status `raise_for_status` raises `HTTPError`
(carrying the status) before any GET is issued.  Otherwise extract the job
id from `result.id` (string concatenation demands a string), run the
polling loop, GET the `result.file` URL of the status JSON the loop left
behind, take the first entry of the zip archive (`z.NameToInfo.keys()[0]`,
whatever its name), parse it and take its `responses` field.  With
`write_to_disk` the frame is materialized and written (the returned
filename is the written path, otherwise the placeholder `' '`); with
`get_survey_flag` the survey definition is additionally fetched.  Returns
`none` on divergence of the polling loop, otherwise the trace of HTTP
requests together with the returned `(responses, filename)` pair or the
raised error. -/
def get_responseexports (cfg : Config) (w : World) (d : Disk)
    (survey_token survey_name : String) (write_to_disk get_survey_flag : Bool)
    (result_format : String) (max_wait_ms sleep_ms : Nat) (kw : Kwargs)
    (fuel : Nat) : Option (List Req × Except PyErr (J × String)) :=
  let form_fields := mkFormFields survey_token result_format kw
  let full_url := cfg.base_url ++ respExportsSuffix
  let tr0 : List Req := [Req.post full_url form_fields]
  if pyOk w.postStatus then
    match jGet2 w.postBody "result" "id" with
    | .error e => some (tr0, .error e)
    | .ok (J.str id) =>
      match pollLoop w max_wait_ms sleep_ms fuel 0 0 J.null with
      | none => none
      | some (gi, _, .error e) =>
          some (tr0 ++ List.replicate gi (Req.get (statusUrl cfg id)), .error e)
      | some (gi, _, .ok (statusJson, _)) =>
        let tr1 := tr0 ++ List.replicate gi (Req.get (statusUrl cfg id))
        match jGet2 statusJson "result" "file" with
        | .error e => some (tr1, .error e)
        | .ok (J.str fileUrl) =>
          let tr2 := tr1 ++ [Req.get fileUrl]
          match (w.get gi).zipEntries.head? with
          | none => some (tr2, .error .indexError)
          | some (_entryName, content) =>
            match jGet content "responses" with
            | .error e => some (tr2, .error e)
            | .ok responses =>
              let filenameRes : Except PyErr String :=
                if write_to_disk then
                  match create_df_from_api_data (toPayload responses) with
                  | .error e => .error e
                  | .ok df =>
                    write_df_to_disk cfg d df survey_name (respExportsSuffix ++ "/")
                else .ok " "
              match filenameRes with
              | .error e => some (tr2, .error e)
              | .ok filename =>
                if get_survey_flag then
                  match get_survey cfg w d (gi + 1) survey_token survey_name write_to_disk with
                  | (trS, .error e) => some (tr2 ++ trS, .error e)
                  | (trS, .ok _) => some (tr2 ++ trS, .ok (responses, filename))
                else some (tr2, .ok (responses, filename))
        | .ok _ => some (tr1, .error .typeError)
    | .ok _ => some (tr0, .error .typeError)
  else
    some (tr0, .error (.httpError w.postStatus))

/-! ## Claims -/

/-- C10: constructing a `Qualtrics` client requires a non-empty base URL —
for every non-empty `base_url` the constructor yields a client whose stored
base URL ends with `'/'`, while the empty string makes `base_url[-1]` raise
`IndexError` instead of producing a client. -/
theorem c10_init_requires_nonempty_base_url
    (tok pn path ct : String) (uts : Bool) :
    (∀ b : String, b ≠ "" →
      ∃ cfg, qualtricsInit tok pn b path ct uts = .ok cfg ∧
        pyLastChar cfg.base_url = some '/') ∧
    qualtricsInit tok pn "" path ct uts = .error .indexError := by
  constructor
  · intro b hb
    have hd : b.data ≠ [] := fun h => hb (String.ext (h.trans rfl))
    have hc : pyLastChar b = some (b.data.getLast hd) :=
      List.getLast?_eq_getLast b.data hd
    simp only [qualtricsInit, hc]
    refine ⟨_, rfl, ?_⟩
    by_cases hcs : b.data.getLast hd = '/'
    · simp only [hcs, ne_eq, not_true_eq_false, if_false]
      rw [hc, hcs]
    · simp only [ne_eq, hcs, not_false_eq_true, if_true]
      show pyLastChar (b ++ "/") = some '/'
      unfold pyLastChar
      rw [String.data_append]
      exact List.getLast?_concat _
  · rfl

/-- Witness for C10 at a concrete base URL. -/
theorem c10_witness :
    ∃ cfg, qualtricsInit "tok" "proj" "https://x.qualtrics.com/API/v3"
        "../data_out" "json" false = .ok cfg ∧
      pyLastChar cfg.base_url = some '/' :=
  (c10_init_requires_nonempty_base_url "tok" "proj" "../data_out" "json" false).1
    "https://x.qualtrics.com/API/v3" (by decide)

/-- C6: `setup_output_filename` is a pure function of its inputs and the
wall-clock instant.  For a base path with its trailing separator, the
result is `<base>/<project_name>/<stamp>_<survey_name>_<type>.<extension>`
where the stamp is `YYYYMMDD_HHMMSS` exactly when timestamped filenames are
enabled and `YYYYMMDD` otherwise; and two calls with identical inputs and
the same instant yield the identical path (purity is definitional in the
embedding: the wall clock is an explicit argument). -/
theorem c6_setup_output_filename_shape
    (cfg : Config) (now : Instant) (b sn ty ext : String) :
    setup_output_filename cfg now (b ++ "/") sn ty ext
      = b ++ "/" ++ cfg.project_name ++ "/" ++
        (if cfg.use_timestamps then fmtDate now ++ "_" ++ fmtTime now
         else fmtDate now) ++ "_" ++ sn ++ "_" ++ ty ++ "." ++ ext
    ∧ setup_output_filename cfg now (b ++ "/") sn ty ext
      = setup_output_filename cfg now (b ++ "/") sn ty ext
    ∧ (∀ now2 : Instant, cfg.use_timestamps = false →
        now.year = now2.year → now.month = now2.month → now.day = now2.day →
        setup_output_filename cfg now (b ++ "/") sn ty ext
          = setup_output_filename cfg now2 (b ++ "/") sn ty ext) := by
  refine ⟨?_, rfl, ?_⟩
  · cases h : cfg.use_timestamps <;>
      simp [setup_output_filename, h, String.append_assoc]
  · intro now2 hts hy hm hd
    simp [setup_output_filename, hts, fmtDate, hy, hm, hd]

/-- The sanitization lambda never leaves an empty-string cell behind. -/
lemma sanitizeCell_ne_empty (c : Cell) : sanitizeCell c ≠ Cell.str "" := by
  cases c with
  | str s =>
    by_cases h : s = ""
    · subst h
      intro hc
      have hc' : Cell.str " " = Cell.str "" := hc
      injection hc' with h2
      exact absurd h2 (by decide)
    · simp only [sanitizeCell, if_neg h]
      intro hc
      injection hc with h2
      exact h h2
  | num n => exact fun h => Cell.noConfusion h
  | boolean b => exact fun h => Cell.noConfusion h
  | pynone => exact fun h => Cell.noConfusion h
  | nan => exact fun h => Cell.noConfusion h
  | nested j => exact fun h => Cell.noConfusion h

/-- The sanitization lambda is idempotent on cells. -/
lemma sanitizeCell_idem (c : Cell) : sanitizeCell (sanitizeCell c) = sanitizeCell c := by
  cases c with
  | str s =>
    by_cases h : s = ""
    · subst h; rfl
    · simp only [sanitizeCell, if_neg h]
  | num n => rfl
  | boolean b => rfl
  | pynone => rfl
  | nan => rfl
  | nested j => rfl

/-- Cell-wise view of the `.applymap` sanitization. -/
lemma getCell_sanitizeTable (t : Table) (i j : Nat) :
    getCell (sanitizeTable t) i j = (getCell t i j).map sanitizeCell := by
  simp only [getCell, sanitizeTable, List.getElem?_map]
  cases h : t.rows[i]? with
  | none => simp
  | some r => simp [List.getElem?_map]

/-- The `.applymap` sanitization is idempotent on frames. -/
lemma sanitizeTable_idem (t : Table) : sanitizeTable (sanitizeTable t) = sanitizeTable t := by
  simp only [sanitizeTable, List.map_map]
  refine congrArg (Table.mk t.cols) ?_
  refine List.map_congr_left fun r _ => ?_
  show List.map sanitizeCell (List.map sanitizeCell r) = List.map sanitizeCell r
  rw [List.map_map]
  exact List.map_congr_left fun c _ => sanitizeCell_idem c

/-- C4: for every payload `create_df_from_api_data` accepts (the raw
dispatch produced the table `raw` and the call returned `t`), every cell
that was the empty string before sanitization is the single space `" "` in
the output, no output cell is the empty string, and re-running the
sanitization on the output is a no-op. -/
theorem c4_sanitization_invariants (p : Payload) (raw t : Table)
    (hraw : rawTable p = .ok raw)
    (ht : create_df_from_api_data p = .ok t) :
    (∀ i j, getCell raw i j = some (Cell.str "") →
      getCell t i j = some (Cell.str " "))
    ∧ (∀ i j, getCell t i j ≠ some (Cell.str ""))
    ∧ sanitizeTable t = t := by
  have hts : t = sanitizeTable raw := by
    rw [create_df_from_api_data, hraw] at ht
    simp only [Except.map] at ht
    exact (Except.ok.inj ht).symm
  subst hts
  refine ⟨?_, ?_, sanitizeTable_idem raw⟩
  · intro i j h
    rw [getCell_sanitizeTable, h]
    rfl
  · intro i j
    rw [getCell_sanitizeTable]
    cases h : getCell raw i j with
    | none => simp
    | some c =>
      simp only [Option.map_some']
      intro hc
      exact sanitizeCell_ne_empty c (Option.some.inj hc)

/-- Witness for C4 at the concrete three-record payload of the spec. -/
theorem c4_witness :
    (∀ i j, getCell (recordsTable [[("q1", J.str "a")],
        [("q1", J.str "b"), ("q2", J.str "")], [("q2", J.str "c")]]) i j
          = some (Cell.str "") →
      getCell (sanitizeTable (recordsTable [[("q1", J.str "a")],
        [("q1", J.str "b"), ("q2", J.str "")], [("q2", J.str "c")]])) i j
          = some (Cell.str " "))
    ∧ (∀ i j, getCell (sanitizeTable (recordsTable [[("q1", J.str "a")],
        [("q1", J.str "b"), ("q2", J.str "")], [("q2", J.str "c")]])) i j
          ≠ some (Cell.str ""))
    ∧ sanitizeTable (sanitizeTable (recordsTable [[("q1", J.str "a")],
        [("q1", J.str "b"), ("q2", J.str "")], [("q2", J.str "c")]]))
      = sanitizeTable (recordsTable [[("q1", J.str "a")],
        [("q1", J.str "b"), ("q2", J.str "")], [("q2", J.str "c")]]) :=
  c4_sanitization_invariants
    (Payload.plist [J.obj [("q1", J.str "a")],
      J.obj [("q1", J.str "b"), ("q2", J.str "")], J.obj [("q2", J.str "c")]])
    _ _ rfl rfl

/-- Membership in the accumulator pass of the deduplication. -/
lemma mem_firstSeenAux (c : String) :
    ∀ (l acc : List String), c ∈ firstSeenAux acc l ↔ c ∈ acc ∨ c ∈ l := by
  intro l
  induction l with
  | nil => intro acc; simp [firstSeenAux]
  | cons k ks ih =>
    intro acc
    by_cases hk : k ∈ acc
    · simp only [firstSeenAux, if_pos hk, ih, List.mem_cons]
      constructor
      · rintro (h | h)
        · exact Or.inl h
        · exact Or.inr (Or.inr h)
      · rintro (h | rfl | h)
        · exact Or.inl h
        · exact Or.inl hk
        · exact Or.inr h
    · simp only [firstSeenAux, if_neg hk, ih, List.mem_cons]
      tauto

/-- The deduplicated key list has the same members as the input. -/
lemma mem_firstSeen (l : List String) (c : String) : c ∈ firstSeen l ↔ c ∈ l := by
  rw [firstSeen, mem_firstSeenAux]
  simp

/-- C5 counterexample: the claim says a table payload "passes through
unchanged", but the `.applymap` sanitization also runs on the pass-through
branch — a frame holding an empty-string cell comes out changed. -/
theorem c5_counterexample_frame_not_unchanged :
    create_df_from_api_data
        (Payload.pframe { cols := ["c"], rows := [[Cell.str ""]] })
      = .ok { cols := ["c"], rows := [[Cell.str " "]] }
    ∧ ({ cols := ["c"], rows := [[Cell.str " "]] } : Table)
      ≠ { cols := ["c"], rows := [[Cell.str ""]] } := by
  refine ⟨rfl, fun h => ?_⟩
  have h0 : (some (Cell.str " ") : Option Cell) = some (Cell.str "") :=
    congrArg (fun t => getCell t 0 0) h
  have h1 := Option.some.inj h0
  injection h1 with h2
  exact absurd h2 (by decide)

/-- Every element of a list of wrapped records is a mapping object. -/
lemma all_isObjJ_map_obj (recs : List (List (String × J))) :
    (recs.map J.obj).all isObjJ = true := by
  rw [List.all_eq_true]
  intro x hx
  rcases List.mem_map.mp hx with ⟨r, _, rfl⟩
  rfl

/-- Unwrapping the fields of wrapped records is the identity. -/
lemma map_objFields_map_obj (recs : List (List (String × J))) :
    (recs.map J.obj).map objFields = recs := by
  rw [List.map_map]
  have h : objFields ∘ J.obj = id := funext fun r => rfl
  rw [h, List.map_id]

/-- C5 (amended): `create_df_from_api_data` dispatches on the payload's
shape.  A list of mapping objects yields one row per record with column set
the union of observed keys and `NaN` for missing keys; a single mapping
yields a two-column (key, value) table; a table passes through the dispatch
but — the amendment — still receives the empty-string sanitization (it is
unchanged only when it holds no empty-string cell); any other type raises
`ValueError`.  On the spec's 3-record example the result has 3 rows,
columns `{q1, q2}`, and `" "` at row 2 / `q2`. -/
theorem c5_amended_dispatch :
    (∀ recs : List (List (String × J)),
      create_df_from_api_data (Payload.plist (recs.map J.obj))
          = .ok (sanitizeTable (recordsTable recs))
      ∧ (recordsTable recs).rows.length = recs.length
      ∧ (∀ c, c ∈ (recordsTable recs).cols ↔ ∃ r ∈ recs, ∃ v, (c, v) ∈ r)
      ∧ (∀ i r c jx, recs[i]? = some r →
          (recordsTable recs).cols[jx]? = some c → r.lookup c = none →
          getCell (recordsTable recs) i jx = some Cell.nan))
    ∧ (∀ fields : List (String × J),
        create_df_from_api_data (Payload.pdict fields)
            = .ok (sanitizeTable (itemsTable fields))
        ∧ (itemsTable fields).cols.length = 2
        ∧ (itemsTable fields).rows
            = fields.map fun kv => [Cell.str kv.1, jToCell kv.2])
    ∧ (∀ t : Table,
        create_df_from_api_data (Payload.pframe t) = .ok (sanitizeTable t))
    ∧ create_df_from_api_data Payload.pother
        = .error (.valueError
            "Need to add a new type of dataframe object value to the code.")
    ∧ create_df_from_api_data (Payload.plist [J.obj [("q1", J.str "a")],
        J.obj [("q1", J.str "b"), ("q2", J.str "")], J.obj [("q2", J.str "c")]])
      = .ok { cols := ["q1", "q2"],
              rows := [[Cell.str "a", Cell.nan],
                       [Cell.str "b", Cell.str " "],
                       [Cell.nan, Cell.str "c"]] } := by
  refine ⟨?_, fun fields => ⟨rfl, rfl, rfl⟩, fun t => rfl, rfl, by rfl⟩
  intro recs
  refine ⟨?_, by simp [recordsTable], ?_, ?_⟩
  · simp only [create_df_from_api_data, rawTable, pdFrameOfList,
      all_isObjJ_map_obj, if_true, map_objFields_map_obj, Except.map]
  · intro c
    have hcols : (recordsTable recs).cols
        = firstSeen (recs.map (List.map Prod.fst)).flatten := rfl
    rw [hcols, mem_firstSeen, List.mem_flatten]
    constructor
    · rintro ⟨l, hl, hcl⟩
      rcases List.mem_map.mp hl with ⟨r, hr, rfl⟩
      rcases List.mem_map.mp hcl with ⟨⟨c', v⟩, hm, hfst⟩
      refine ⟨r, hr, v, ?_⟩
      rwa [show c' = c from hfst] at hm
    · rintro ⟨r, hr, v, hv⟩
      exact ⟨r.map Prod.fst, List.mem_map.mpr ⟨r, hr, rfl⟩,
        List.mem_map.mpr ⟨(c, v), hv, rfl⟩⟩
  · intro i r c jx hi hc hlk
    have hrows : (recordsTable recs).rows[i]?
        = some (recordRow (recordsTable recs).cols r) := by
      show (recs.map (recordRow (recordsCols recs)))[i]? = _
      rw [List.getElem?_map, hi]
      rfl
    simp only [getCell, hrows]
    show (recordRow (recordsTable recs).cols r)[jx]? = some Cell.nan
    unfold recordRow
    rw [List.getElem?_map, hc]
    simp only [Option.map_some']
    rw [hlk]

/-- Witness for C5 at a concrete record list with a missing key. -/
theorem c5_witness :
    getCell (recordsTable [[("q1", J.str "a")], [("q2", J.str "c")]]) 0 1
      = some Cell.nan :=
  (c5_amended_dispatch.1 [[("q1", J.str "a")], [("q2", J.str "c")]]).2.2.2
    0 [("q1", J.str "a")] "q2" 1 rfl rfl rfl

/-- A concrete filesystem oracle on which every operation succeeds. -/
def diskOk : Disk :=
  { isdir := fun _ => true, realpath := id, abspath := fun s => "/abs/" ++ s
    featherOk := true, openOk := true, dumpOk := true
    now := { year := 2016, month := 1, day := 2, hour := 3, minute := 4, second := 5 } }

/-- A filesystem oracle on which `open(path, 'w')` fails. -/
def diskOpenFails : Disk := { diskOk with openOk := false }

/-- A filesystem oracle on which `json.dump` fails. -/
def diskDumpFails : Disk := { diskOk with dumpOk := false }

/-- C8 counterexample: when opening the destination fails, the raised error
is the raw `IOError` of `open` — not the `ValueError` naming the resolved
absolute path — because the `open` call sits outside the `try` block. -/
theorem c8_counterexample_open_failure_unwrapped :
    write_json_to_disk diskOpenFails J.null "out.json" = .error .ioError
    ∧ PyErr.ioError
        ≠ PyErr.valueError
            ("Unable to write json output to disk at " ++ diskOpenFails.abspath "out.json") :=
  ⟨rfl, by decide⟩

/-- C8 (amended): when the destination opens successfully and the
serialization (`json.dump`) then fails, `write_json_to_disk` raises the
`ValueError` whose message names the resolved absolute path of the
destination file; a failure of `open` itself propagates unwrapped. -/
theorem c8_amended_write_error_names_abspath (d : Disk) (j : J) (p : String)
    (hopen : d.openOk = true) (hdump : d.dumpOk = false) :
    write_json_to_disk d j p
      = .error (.valueError
          ("Unable to write json output to disk at " ++ d.abspath p)) := by
  simp [write_json_to_disk, hopen, hdump]

/-- Witness for C8 at a concrete failing dump. -/
theorem c8_witness :
    write_json_to_disk diskDumpFails J.null "f.json"
      = .error (.valueError "Unable to write json output to disk at /abs/f.json") :=
  c8_amended_write_error_names_abspath diskDumpFails J.null "f.json" rfl rfl

/-- Unfolding of the result component of `get_survey`. -/
lemma get_survey_snd (cfg : Config) (w : World) (d : Disk) (gi : Nat)
    (tok sn : String) (wtd : Bool) :
    (get_survey cfg w d gi tok sn wtd).2 =
      match jGet (w.get gi).jsonBody "result" with
      | .error e => .error e
      | .ok result =>
        if wtd then
          match normalizeOutPath d cfg.path_to_output_files with
          | .error e => .error e
          | .ok base =>
            match write_json_to_disk d result
                (setup_output_filename cfg d.now base sn "survey" "json") with
            | .error e => .error e
            | .ok _ => .ok result
        else .ok result := rfl

/-- C7: `get_survey` issues exactly one GET request — to the base URL
followed by `surveys/` and the survey token — with no polling and no retry
(the trace is that single request whatever else happens), every successful
return value is the `result` field of the parsed response body, and with
`write_to_disk = False` a body carrying a `result` field is returned as
exactly that field. -/
theorem c7_get_survey_single_get (cfg : Config) (w : World) (d : Disk)
    (gi : Nat) (tok sn : String) (wtd : Bool) :
    (get_survey cfg w d gi tok sn wtd).1
        = [Req.get (cfg.base_url ++ "surveys/" ++ tok)]
    ∧ (∀ v, (get_survey cfg w d gi tok sn wtd).2 = .ok v →
        jGet (w.get gi).jsonBody "result" = .ok v)
    ∧ (∀ v, wtd = false → jGet (w.get gi).jsonBody "result" = .ok v →
        (get_survey cfg w d gi tok sn wtd).2 = .ok v) := by
  refine ⟨rfl, ?_, ?_⟩
  · intro v hv
    rw [get_survey_snd] at hv
    cases hel : jGet (w.get gi).jsonBody "result" with
    | error e =>
      rw [hel] at hv
      exact absurd hv (by simp)
    | ok r =>
      rw [hel] at hv
      have hrv : r = v := by
        cases wtd with
        | false => exact Except.ok.inj hv
        | true =>
          have hv1 : (match normalizeOutPath d cfg.path_to_output_files with
              | .error e => (.error e : Except PyErr J)
              | .ok base =>
                match write_json_to_disk d r
                    (setup_output_filename cfg d.now base sn "survey" "json") with
                | .error e => .error e
                | .ok _ => .ok r) = .ok v := hv
          cases hnp : normalizeOutPath d cfg.path_to_output_files with
          | error e =>
            rw [hnp] at hv1
            exact absurd hv1 (by simp)
          | ok base =>
            rw [hnp] at hv1
            have hv2 : (match write_json_to_disk d r
                (setup_output_filename cfg d.now base sn "survey" "json") with
                | .error e => (.error e : Except PyErr J)
                | .ok _ => .ok r) = .ok v := hv1
            cases hwj : write_json_to_disk d r
                (setup_output_filename cfg d.now base sn "survey" "json") with
            | error e =>
              rw [hwj] at hv2
              exact absurd hv2 (by simp)
            | ok u =>
              rw [hwj] at hv2
              exact Except.ok.inj hv2
      exact congrArg Except.ok hrv
  · intro v hw hr
    subst hw
    rw [get_survey_snd, hr]
    rfl

/-- A concrete client configuration used by the concrete-input theorems. -/
def cfgX : Config :=
  { api_token_header := [("x-api-token", "tok"), ("Content-Type", "application/json")]
    project_name := "Proj"
    base_url := "http://q/"
    path_to_output_files := "out"
    use_timestamps := false }

/-- A GET response whose body carries a survey definition. -/
def surveyWorld : World :=
  { postStatus := 200
    postBody := J.null
    get := fun _ =>
      { jsonBody := J.obj [("result", J.obj [("name", J.str "Survey")])]
        zipEntries := [] } }

/-- Witness for C7 at a concrete survey body. -/
theorem c7_witness :
    (get_survey cfgX surveyWorld diskOk 0 "SV_1" "S" false).2
      = .ok (J.obj [("name", J.str "Survey")]) :=
  (c7_get_survey_single_get cfgX surveyWorld diskOk 0 "SV_1" "S" false).2.2
    (J.obj [("name", J.str "Survey")]) rfl rfl

/-- A status response reporting a complete job with its file URL. -/
def statusComplete : GetResp :=
  { jsonBody := J.obj [("result",
      J.obj [("percentComplete", J.num 100), ("file", J.str "http://q/file.zip")])]
    zipEntries := [] }

/-- A download response: a one-entry zip archive whose JSON content carries
an empty `responses` array. -/
def downloadResp : GetResp :=
  { jsonBody := J.null
    zipEntries := [("whatever.json", J.obj [("responses", J.arr [])])] }

/-- A server whose submission POST yields status 304 (not a 2xx success)
and whose export then runs to completion. -/
def world304 : World :=
  { postStatus := 304
    postBody := J.obj [("result", J.obj [("id", J.str "ES_1")])]
    get := fun i => if i = 0 then statusComplete else downloadResp }

/-- C2 counterexample: a submission answered with HTTP 304 — a non-success
(non-2xx) status — raises nothing: `requests.Response.ok` is only false for
4xx/5xx, so the code proceeds to poll (a GET to the polling URL appears in
the trace) and returns a record set. -/
theorem c2_counterexample_304_polls :
    get_responseexports cfgX world304 diskOk "SV_1" "S" false false "json"
        100 1 {} 5
      = some ([Req.post "http://q/responseexports" (mkFormFields "SV_1" "json" {}),
               Req.get "http://q/responseexports/ES_1",
               Req.get "http://q/file.zip"],
              .ok (J.arr [], " "))
    ∧ Req.get "http://q/responseexports/ES_1"
        ∈ [Req.post "http://q/responseexports" (mkFormFields "SV_1" "json" {}),
           Req.get "http://q/responseexports/ES_1",
           Req.get "http://q/file.zip"] :=
  ⟨rfl, List.mem_cons_of_mem _ (List.mem_cons_self _ _)⟩

/-- C2 (amended): for every submission whose HTTP response has a 4xx/5xx
status — the statuses `raise_for_status` covers — `get_responseexports`
raises `HTTPError` carrying the upstream status, and the trace holds the
submission POST only: no GET to any polling URL is issued before the error.
Non-2xx statuses below 400 are treated as success (see the
counterexample). -/
theorem c2_amended_error_status_raises_before_polling
    (cfg : Config) (w : World) (d : Disk) (tok sn : String)
    (wtd gs : Bool) (fmt : String) (maxW s : Nat) (kw : Kwargs) (fuel : Nat)
    (h4 : 400 ≤ w.postStatus) (h6 : w.postStatus < 600) :
    get_responseexports cfg w d tok sn wtd gs fmt maxW s kw fuel
      = some ([Req.post (cfg.base_url ++ respExportsSuffix)
                 (mkFormFields tok fmt kw)],
              .error (.httpError w.postStatus))
    ∧ ∀ q ∈ [Req.post (cfg.base_url ++ respExportsSuffix)
               (mkFormFields tok fmt kw)], q.isGet = false := by
  constructor
  · have hok : pyOk w.postStatus = false := by
      simp [pyOk, h4, h6]
    simp only [get_responseexports, hok, Bool.false_eq_true, if_false]
  · intro q hq
    rw [List.mem_singleton.mp hq]
    rfl

/-- A server that answers the submission POST with HTTP 500. -/
def world500 : World :=
  { postStatus := 500
    postBody := J.null
    get := fun _ => { jsonBody := J.null, zipEntries := [] } }

/-- Witness for (amended) C2 at a concrete 500 submission. -/
theorem c2_witness :
    get_responseexports cfgX world500 diskOk "SV_1" "S" false false "json"
        100 1 {} 5
      = some ([Req.post ("http://q/" ++ respExportsSuffix)
                 (mkFormFields "SV_1" "json" {})],
              .error (.httpError 500)) :=
  (c2_amended_error_status_raises_before_polling cfgX world500 diskOk "SV_1" "S"
    false false "json" 100 1 {} 5 (by decide) (by decide)).1

/-- A server whose export never completes: every status poll reports
`percentComplete = 50` (with a file URL present, as some servers send). -/
def worldStuck : World :=
  { postStatus := 200
    postBody := J.obj [("result", J.obj [("id", J.str "ES_1")])]
    get := fun _ =>
      { jsonBody := J.obj [("result",
          J.obj [("percentComplete", J.num 50),
                 ("file", J.str "http://q/file.zip")])]
        zipEntries := [("d.json", J.obj [("responses", J.arr [])])] } }

/-- Termination of the polling loop from its starting state, phrased over
the fuel of the embedding: some amount of fuel makes the loop return. -/
def pollTerminates (w : World) (maxW s : Nat) : Prop :=
  ∃ fuel, (pollLoop w maxW s fuel 0 0 J.null).isSome

/-- With `sleep_ms = 0` against the stuck server, the loop never returns:
the counter never advances, so `sleep_counter_ms <= max_wait_ms` holds
forever. -/
lemma pollLoop_stuck_zero_sleep (maxW : Nat) :
    ∀ fuel gi last, pollLoop worldStuck maxW 0 fuel gi 0 last = none := by
  intro fuel
  induction fuel with
  | zero => intro gi last; rfl
  | succ n ih =>
    intro gi last
    rw [pollLoop, if_pos (Nat.zero_le maxW)]
    have h : jGet2 (worldStuck.get gi).jsonBody "result" "percentComplete"
        = .ok (J.num 50) := rfl
    rw [h]
    show pollLoop worldStuck maxW 0 n (gi + 1) (0 + 0) _ = none
    exact ih (gi + 1) _

/-- C9 counterexample: with the non-negative poll interval 0 the polling
loop diverges when `percentComplete` never reaches 100 — no amount of fuel
makes it return — refuting termination for every non-negative interval. -/
theorem c9_counterexample_zero_interval_diverges :
    ¬ pollTerminates worldStuck 20000 0 := by
  rintro ⟨fuel, h⟩
  rw [pollLoop_stuck_zero_sleep 20000 fuel 0 J.null] at h
  exact Bool.noConfusion h

/-- With a positive sleep increment, enough fuel makes the loop return. -/
lemma pollLoop_terminates_aux (w : World) (maxW s : Nat) (hs : 1 ≤ s) :
    ∀ fuel counter gi last, maxW + 1 < counter + fuel → 1 ≤ fuel →
      (pollLoop w maxW s fuel gi counter last).isSome := by
  intro fuel
  induction fuel with
  | zero => intro counter gi last _ h1; exact absurd h1 (by decide)
  | succ n ih =>
    intro counter gi last h _
    rw [pollLoop]
    by_cases hc : counter ≤ maxW
    · rw [if_pos hc]
      cases hj : jGet2 (w.get gi).jsonBody "result" "percentComplete" with
      | error e => rfl
      | ok pc =>
        by_cases hp : isHundred pc = true
        · simp only [hp, if_true]
          rfl
        · simp only [hp, Bool.false_eq_true, if_false]
          exact ih (counter + s) (gi + 1) _ (by omega) (by omega)
    · rw [if_neg hc]
      rfl

/-- The loop issues at most `max_wait / sleep + 1` status GETs, and its
counter never passes `max_wait + sleep`. -/
lemma pollLoop_get_bound (w : World) (maxW s : Nat) :
    ∀ fuel counter gi last gi2 c2 r, counter ≤ maxW + s →
      pollLoop w maxW s fuel gi counter last = some (gi2, c2, r) →
      s * gi2 + counter ≤ s * gi + maxW + s ∧ c2 ≤ maxW + s := by
  intro fuel
  induction fuel with
  | zero =>
    intro counter gi last gi2 c2 r _ h
    exact absurd h (by simp [pollLoop])
  | succ n ih =>
    intro counter gi last gi2 c2 r hcnt h
    rw [pollLoop] at h
    by_cases hc : counter ≤ maxW
    · rw [if_pos hc] at h
      cases hj : jGet2 (w.get gi).jsonBody "result" "percentComplete" with
      | error e =>
        rw [hj] at h
        simp only [Option.some.injEq, Prod.mk.injEq] at h
        obtain ⟨h1, h2, _⟩ := h
        subst h1; subst h2
        refine ⟨?_, by omega⟩
        rw [Nat.mul_succ]
        linarith [hc]
      | ok pc =>
        rw [hj] at h
        by_cases hp : isHundred pc = true
        · simp only [hp, if_true, Option.some.injEq, Prod.mk.injEq] at h
          obtain ⟨h1, h2, _⟩ := h
          subst h1; subst h2
          refine ⟨?_, by omega⟩
          rw [Nat.mul_succ]
          linarith [hc]
        · simp only [hp, Bool.false_eq_true, if_false] at h
          have hnext : counter + s ≤ maxW + s := by omega
          obtain ⟨h1, h2⟩ := ih (counter + s) (gi + 1) _ gi2 c2 r hnext h
          refine ⟨?_, h2⟩
          rw [Nat.mul_succ] at h1
          linarith [h1]
    · rw [if_neg hc] at h
      simp only [Option.some.injEq, Prod.mk.injEq] at h
      obtain ⟨h1, h2, _⟩ := h
      subst h1; subst h2
      exact ⟨by linarith [hcnt], hcnt⟩

/-- C9 (amended): for every `max_wait` and every positive `poll_interval`
the polling loop of `get_responseexports` terminates — fuel `max_wait + 2`
suffices for it to return, even when `percentComplete` never reaches 100 —
after at most `max_wait / poll_interval + 1` status GETs, the accumulated
counter staying at most `max_wait + poll_interval`.  (A zero interval
diverges: see the counterexample.) -/
theorem c9_amended_poll_loop_terminates (w : World) (maxW s : Nat)
    (hs : 1 ≤ s) :
    ∃ gi c r, pollLoop w maxW s (maxW + 2) 0 0 J.null = some (gi, c, r)
      ∧ gi ≤ maxW / s + 1 ∧ c ≤ maxW + s := by
  have hsome := pollLoop_terminates_aux w maxW s hs (maxW + 2) 0 0 J.null
    (by omega) (by omega)
  obtain ⟨⟨gi, c, r⟩, h⟩ := Option.isSome_iff_exists.mp hsome
  obtain ⟨h1, h2⟩ := pollLoop_get_bound w maxW s (maxW + 2) 0 0 J.null gi c r
    (by omega) h
  refine ⟨gi, c, r, h, ?_, h2⟩
  have hgi : s * gi ≤ maxW + s := by linarith [h1]
  have hdiv : gi ≤ (maxW + s) / s := by
    rw [Nat.le_div_iff_mul_le (by omega)]
    linarith [hgi]
  rwa [Nat.add_div_right maxW (by omega : 0 < s)] at hdiv

/-- Witness for (amended) C9 against the stuck server with interval 1. -/
theorem c9_witness :
    ∃ gi c r, pollLoop worldStuck 3 1 (3 + 2) 0 0 J.null = some (gi, c, r)
      ∧ gi ≤ 3 / 1 + 1 ∧ c ≤ 3 + 1 :=
  c9_amended_poll_loop_terminates worldStuck 3 1 (by decide)

/-- C1: for every export run whose polling loop observes
`percentComplete == 100` (it broke out with the completion flag), whose
completed status JSON carries the download URL, and whose downloaded zip
archive has a first entry — of arbitrary name — whose JSON content carries
a `responses` field, `get_responseexports` (fetch contract:
`write_to_disk = False`, `get_survey = False`) returns exactly that
`responses` array (paired with the placeholder filename `' '`), its trace
being the POST, the polling GETs and the archive download. -/
theorem c1_completed_export_returns_responses
    (cfg : Config) (w : World) (d : Disk) (tok sn fmt : String)
    (maxW s fuel : Nat) (kw : Kwargs) (id : String) (gi cnt : Nat) (S : J)
    (fileUrl entryName : String) (content : J) (rest : List (String × J))
    (R : J)
    (hok : pyOk w.postStatus = true)
    (hid : jGet2 w.postBody "result" "id" = .ok (J.str id))
    (hpoll : pollLoop w maxW s fuel 0 0 J.null = some (gi, cnt, .ok (S, true)))
    (hfile : jGet2 S "result" "file" = .ok (J.str fileUrl))
    (hzip : (w.get gi).zipEntries = (entryName, content) :: rest)
    (hresp : jGet content "responses" = .ok R) :
    get_responseexports cfg w d tok sn false false fmt maxW s kw fuel
      = some (([Req.post (cfg.base_url ++ respExportsSuffix)
                  (mkFormFields tok fmt kw)]
                ++ List.replicate gi (Req.get (statusUrl cfg id)))
                ++ [Req.get fileUrl],
              .ok (R, " ")) := by
  simp only [get_responseexports, hok, if_true, hid, hpoll, hfile, hzip,
    List.head?_cons, hresp, Bool.false_eq_true, if_false]

/-- A server whose submission succeeds (200) and whose export is complete
at the first poll. -/
def worldOk : World :=
  { postStatus := 200
    postBody := J.obj [("result", J.obj [("id", J.str "ES_1")])]
    get := fun i => if i = 0 then statusComplete else downloadResp }

/-- Witness for C1 at a concrete completed export. -/
theorem c1_witness :
    get_responseexports cfgX worldOk diskOk "SV_1" "S" false false "json"
        100 1 {} 5
      = some (([Req.post (cfgX.base_url ++ respExportsSuffix)
                  (mkFormFields "SV_1" "json" {})]
                ++ List.replicate 1 (Req.get (statusUrl cfgX "ES_1")))
                ++ [Req.get "http://q/file.zip"],
              .ok (J.arr [], " ")) :=
  c1_completed_export_returns_responses cfgX worldOk diskOk "SV_1" "S" "json"
    100 1 5 {} "ES_1" 1 0 statusComplete.jsonBody "http://q/file.zip"
    "whatever.json" (J.obj [("responses", J.arr [])]) [] (J.arr [])
    rfl rfl rfl rfl rfl rfl

/-- C3: the timeout defect.  Against a server that always reports
`percentComplete = 50` — the job never completes — and with
`max_wait_ms = 1`, `sleep_ms = 1`, the polling loop falls out of its
`while` condition without any completion check, and the code proceeds to
download `result.file` and returns a record set as if the job had
completed: no exception is raised.  The last two conjuncts exhibit that
every observed poll reported 50 percent. -/
theorem c3_timeout_returns_success_despite_incomplete :
    get_responseexports cfgX worldStuck diskOk "SV_1" "S" false false "json"
        1 1 {} 5
      = some ([Req.post "http://q/responseexports" (mkFormFields "SV_1" "json" {}),
               Req.get "http://q/responseexports/ES_1",
               Req.get "http://q/responseexports/ES_1",
               Req.get "http://q/file.zip"],
              .ok (J.arr [], " "))
    ∧ jGet2 (worldStuck.get 0).jsonBody "result" "percentComplete"
        = .ok (J.num 50)
    ∧ jGet2 (worldStuck.get 1).jsonBody "result" "percentComplete"
        = .ok (J.num 50) :=
  ⟨rfl, rfl, rfl⟩
